import Mathlib

/-!
Verification of the zk-light-client repository (core + zkVM programs).

The Rust sources are shallowly embedded: byte strings become `List Nat`
(each entry a byte value), fixed-size Rust arrays become lists whose
length appears as a hypothesis where it matters, machine integers become
`Nat` with explicit `% 2^w` at the points where Rust wraps or checks
overflow, and panics (`assert!`, `unwrap`, `expect`) become `Bool` /
`Option` failure.  The SHA-256 function is implemented concretely (FIPS
180-4), matching the `sha2` crate used by the sources.  The zkVM proof
oracle (`sp1_zkvm::lib::verify::verify_sp1_proof`) and the external
Tendermint light-client / ICS23 verifiers are parameters of the embedded
programs, reflecting that they are external collaborators of the code
under verification.
-/

namespace ZkLC


/-- Byte strings are lists of naturals; every byte produced by the model is < 256. -/
abbrev Bytes := List Nat

/-- Little-endian encoding of `x` into `n` bytes (Rust `to_le_bytes`, truncating). -/
def toLEBytes : Nat → Nat → Bytes
  | 0, _ => []
  | n + 1, x => x % 256 :: toLEBytes n (x / 256)

/-- Little-endian reading of a byte string (Rust `from_le_bytes`). -/
def fromLEBytes : Bytes → Nat
  | [] => 0
  | b :: rest => b + 256 * fromLEBytes rest

/-- Big-endian encoding of `x` into `n` bytes. -/
def beBytes : Nat → Nat → Bytes
  | 0, _ => []
  | n + 1, x => beBytes n (x / 256) ++ [x % 256]

/-- Big-endian reading of a byte string, as done by `U256::from_be_slice`. -/
def beNat (bs : Bytes) : Nat := bs.foldl (fun acc b => acc * 256 + b) 0

/-- 32-bit truncation. -/
def w32 (x : Nat) : Nat := x % 4294967296

/-- 32-bit right rotation (`x` is a 32-bit word). -/
def rotr32 (x n : Nat) : Nat := w32 ((x >>> n) ||| (x <<< (32 - n)))

def bigSigma0 (x : Nat) : Nat := rotr32 x 2 ^^^ rotr32 x 13 ^^^ rotr32 x 22

def bigSigma1 (x : Nat) : Nat := rotr32 x 6 ^^^ rotr32 x 11 ^^^ rotr32 x 25

def smallSigma0 (x : Nat) : Nat := rotr32 x 7 ^^^ rotr32 x 18 ^^^ (x >>> 3)

def smallSigma1 (x : Nat) : Nat := rotr32 x 17 ^^^ rotr32 x 19 ^^^ (x >>> 10)

def shaCh (x y z : Nat) : Nat := (x &&& y) ^^^ ((x ^^^ 4294967295) &&& z)

def shaMaj (x y z : Nat) : Nat := (x &&& y) ^^^ (x &&& z) ^^^ (y &&& z)

/-- The 64 SHA-256 round constants. -/
def shaK : List Nat :=
  [1116352408, 1899447441, 3049323471, 3921009573, 961987163,
   1508970993, 2453635748, 2870763221, 3624381080, 310598401,
   607225278, 1426881987, 1925078388, 2162078206, 2614888103,
   3248222580, 3835390401, 4022224774, 264347078, 604807628,
   770255983, 1249150122, 1555081692, 1996064986, 2554220882,
   2821834349, 2952996808, 3210313671, 3336571891, 3584528711,
   113926993, 338241895, 666307205, 773529912, 1294757372,
   1396182291, 1695183700, 1986661051, 2177026350, 2456956037,
   2730485921, 2820302411, 3259730800, 3345764771, 3516065817,
   3600352804, 4094571909, 275423344, 430227734, 506948616,
   659060556, 883997877, 958139571, 1322822218, 1537002063,
   1747873779, 1955562222, 2024104815, 2227730452, 2361852424,
   2428436474, 2756734187, 3204031479, 3329325298]

/-- The SHA-256 initial hash state. -/
def shaInit : List Nat :=
  [1779033703, 3144134277, 1013904242,
   2773480762, 1359893119, 2600822924,
   528734635, 1541459225]

/-- FIPS 180-4 message padding: a 0x80 byte, zeros to 56 mod 64, then the
bit length as 8 big-endian bytes. -/
def shaPad (msg : Bytes) : Bytes :=
  msg ++ 0x80 :: List.replicate ((119 - msg.length % 64) % 64) 0 ++ beBytes 8 (8 * msg.length)

/-- Group bytes into big-endian 32-bit words. -/
def bytesToWordsBE : Bytes → List Nat
  | a :: b :: c :: d :: rest => (a * 16777216 + b * 65536 + c * 256 + d) :: bytesToWordsBE rest
  | _ => []

/-- Split a word list into blocks of 16 words; the first argument is fuel. -/
def chunkWords : Nat → List Nat → List (List Nat)
  | 0, _ => []
  | _ + 1, [] => []
  | n + 1, ws => ws.take 16 :: chunkWords n (ws.drop 16)

/-- Extend a 16-word block to the 64-word message schedule; the first
argument is the number of words still to append (48 at the top call). -/
def extendSchedule : Nat → List Nat → List Nat
  | 0, ws => ws
  | n + 1, ws =>
    let i := ws.length
    let nw := w32 ((ws.getD (i - 16) 0) + smallSigma0 (ws.getD (i - 15) 0) +
                   (ws.getD (i - 7) 0) + smallSigma1 (ws.getD (i - 2) 0))
    extendSchedule n (ws ++ [nw])

/-- One SHA-256 compression round; the state is the 8 working variables,
`p` pairs the round constant with the schedule word. -/
def shaCompressStep (st : List Nat) (p : Nat × Nat) : List Nat :=
  match st with
  | [a, b, c, d, e, f, g, h] =>
    let t1 := w32 (h + bigSigma1 e + shaCh e f g + p.1 + p.2)
    let t2 := w32 (bigSigma0 a + shaMaj a b c)
    [w32 (t1 + t2), a, b, c, w32 (d + t1), e, f, g]
  | other => other

/-- Compress one 16-word block into the running 8-word hash state. -/
def shaCompressBlock (st : List Nat) (block : List Nat) : List Nat :=
  let sched := extendSchedule 48 block
  let fin := (shaK.zip sched).foldl shaCompressStep st
  (st.zip fin).map (fun p => w32 (p.1 + p.2))

/-- SHA-256 of a byte string, as a 32-byte string. -/
def sha256 (msg : Bytes) : Bytes :=
  let padded := shaPad msg
  let blocks := chunkWords padded.length (bytesToWordsBE padded)
  ((blocks.foldl shaCompressBlock shaInit).map (beBytes 4)).flatten

/-- The repository's `sha256_hash` (src/core/src/lib.rs). -/
def sha256_hash (bytes : Bytes) : Bytes := sha256 bytes

/-- The repository's `to_little_endian_bytes` (src/core/src/bitcoin.rs): reverse a 32-byte hash. -/
def to_little_endian_bytes (hash : Bytes) : Bytes := hash.reverse

/-- The repository's `double_sha256_hash` (src/core/src/bitcoin.rs). -/
def double_sha256_hash (tx : Bytes) : Bytes := to_little_endian_bytes (sha256_hash (sha256_hash tx))

/-- src/core/src/bitcoin.rs constants. -/
def MIN_TRUSTED_BLOCK_NUMBER : Nat := 11

def M_CONFIRMATION : Nat := 3

def EPOCH_BLOCK_NUMBER : Nat := 2016

def BLOCK_TIMEVAL : Nat := 600

def EXPECTED_EPOCH_SECONDS : Nat := EPOCH_BLOCK_NUMBER * BLOCK_TIMEVAL

/-- `2^256`, the modulus of the `U256` arithmetic used by the validator. -/
def U256_LIMIT : Nat := 2 ^ 256

/-- Wrapping `u32` subtraction (release-profile semantics of `a - b` on `u32`). -/
def wrappingSub32 (a b : Nat) : Nat :=
  (a % 4294967296 + 4294967296 - b % 4294967296) % 4294967296

/-- `CircuitBlock` (src/core/src/bitcoin/block.rs): the circuit-friendly
Bitcoin header.  Rust's `[u8; 4]` / `[u8; 32]` fields are lists; their
lengths appear as hypotheses where a theorem needs them. -/
structure CircuitBlock where
  height : Nat
  version : Bytes
  prev_blockhash : Bytes
  merkle_root : Bytes
  time : Bytes
  bits : Bytes
  nonce : Bytes
deriving DecidableEq, Inhabited

/-- `CircuitBlock::serialize`: the 80-byte wire form (the height field is not
written).  The source's `assert_eq!(bytes.len(), 80)` always holds for the
Rust field types; here the length is a theorem under field-length hypotheses. -/
def CircuitBlock.serialize (b : CircuitBlock) : Bytes :=
  b.version ++ b.prev_blockhash ++ b.merkle_root ++ b.time ++ b.bits ++ b.nonce

/-- `CircuitBlock::compute_block_hash`. -/
def CircuitBlock.compute_block_hash (b : CircuitBlock) : Bytes :=
  double_sha256_hash b.serialize

/-- `bits_to_target` (src/core/src/bitcoin/block.rs), the compact-bits
decoder taken from rust-bitcoin.  `U256` shifts wrap modulo `2^256`. -/
def bits_to_target (bits : Bytes) : Nat :=
  let b := fromLEBytes bits
  let unshifted_expt := b >>> 24
  let mant :=
    if unshifted_expt ≤ 3 then (b &&& 0xFFFFFF) >>> (8 * (3 - unshifted_expt))
    else b &&& 0xFFFFFF
  let expt := if unshifted_expt ≤ 3 then 0 else 8 * ((b >>> 24) - 3)
  if mant > 0x7FFFFF then 0 else (mant <<< expt) % U256_LIMIT

/-- `assert_new_target_bits` (src/core/src/bitcoin/block.rs) as a Bool:
`false` means the Rust code panics (either the failed `checked_mul` unwrap
or a failed assertion).  Note the source reads the proposed bits with
mantissa and exponent swapped relative to `bits_to_target`: its `mant` is
the exponent byte and its `expt` is the 24-bit mantissa. -/
def assert_new_target_bits
    (last_epoch_begin_block last_epoch_end_block new_epoch_begin_block : CircuitBlock) : Bool :=
  let old_target := bits_to_target last_epoch_begin_block.bits
  let dt := wrappingSub32 (fromLEBytes last_epoch_end_block.time)
      (fromLEBytes last_epoch_begin_block.time)
  if old_target * dt ≥ U256_LIMIT then false
  else
    let new_target := old_target * dt / EXPECTED_EPOCH_SECONDS
    let new_bits := fromLEBytes new_epoch_begin_block.bits
    let mant := new_bits >>> 24
    let expt0 := new_bits &&& 0xFFFFFF
    let expt := if expt0 > 0x7FFFFF then expt0 >>> 8 else expt0
    if mant ≤ 3 then decide (new_target = expt >>> (8 * (3 - mant)))
    else decide (new_target >>> (8 * (mant - 3)) = expt)

/-- Insert `x` into a sorted list, before the first element not strictly
below it; together with `stableInsertionSort` this computes exactly the
stable ascending sort that Rust's `Vec::sort_by` produces. -/
def insertSorted {α : Type} (lt : α → α → Bool) (x : α) : List α → List α
  | [] => [x]
  | y :: ys => if lt y x then y :: insertSorted lt x ys else x :: y :: ys

/-- Stable ascending insertion sort; the output (sorted by the key, with
tied elements in input order) coincides with Rust's stable `sort_by`. -/
def stableInsertionSort {α : Type} (lt : α → α → Bool) : List α → List α
  | [] => []
  | x :: xs => insertSorted lt x (stableInsertionSort lt xs)

/-- `ConsensusBlockPublicInput` (src/core/src/bitcoin/consensus.rs). -/
structure ConsensusBlockPublicInput where
  prev_block_hash : Bytes
  proposed_block_hash : Bytes
  retarget_block_hash : Bytes
  median_block_hash : Bytes
  m_deep_tx_merkle_root : Bytes
  proposed_block_height : Nat
deriving DecidableEq, Inhabited

/-- `validate_block` (src/core/src/bitcoin/block.rs) as a Bool: `true` iff
none of the nine assertion groups panics. -/
def validate_block (proposed_chain : List CircuitBlock) (retarget_block : CircuitBlock)
    (block_public_input : ConsensusBlockPublicInput) : Bool :=
  let minimum_chain_len := MIN_TRUSTED_BLOCK_NUMBER + 1
  let len := proposed_chain.length
  let proposed_block := proposed_chain.getD (len - 1) default
  let previous_block := proposed_chain.getD (len - 2) default
  let m_deep_block := proposed_chain.getD (len - M_CONFIRMATION - 1) default
  let bpi := block_public_input
  -- 1) length of the proposed chain
  decide (len ≥ minimum_chain_len) &&
  -- 2) proposed block height
  decide (bpi.proposed_block_height ≥ minimum_chain_len) &&
  decide (bpi.proposed_block_height ≥ retarget_block.height) &&
  decide (bpi.proposed_block_height = proposed_block.height) &&
  decide (bpi.proposed_block_height = previous_block.height + 1) &&
  decide (bpi.proposed_block_height = m_deep_block.height + M_CONFIRMATION) &&
  -- 3) proposed block hash
  decide (bpi.proposed_block_hash = proposed_block.compute_block_hash) &&
  -- 4) previous block hash and chaining
  decide (bpi.prev_block_hash = previous_block.compute_block_hash) &&
  decide (bpi.prev_block_hash = to_little_endian_bytes proposed_block.prev_blockhash) &&
  -- 5) retarget block hash
  decide (bpi.retarget_block_hash = retarget_block.compute_block_hash) &&
  !decide (bpi.retarget_block_hash = bpi.proposed_block_hash) &&
  -- 6) target bits
  (if bpi.proposed_block_height % 2016 = 0 then
      assert_new_target_bits retarget_block previous_block proposed_block
    else decide (retarget_block.bits = proposed_block.bits)) &&
  -- 7) proof of work
  decide (beNat bpi.proposed_block_hash ≤ bits_to_target proposed_block.bits) &&
  -- 8) median timestamp
  (let median_idx :=
      if MIN_TRUSTED_BLOCK_NUMBER % 2 = 0 then MIN_TRUSTED_BLOCK_NUMBER / 2
      else (MIN_TRUSTED_BLOCK_NUMBER - 1) / 2
   let start_idx := len - minimum_chain_len
   let observing_blocks := (proposed_chain.drop start_idx).take (len - 1 - start_idx)
   let sorted := stableInsertionSort
      (fun a b => decide (fromLEBytes a.time < fromLEBytes b.time)) observing_blocks
   let median_block := sorted.getD median_idx default
   decide (bpi.median_block_hash = median_block.compute_block_hash) &&
   decide (fromLEBytes median_block.time ≤ fromLEBytes proposed_block.time)) &&
  -- 9) m-deep transaction merkle root
  decide (bpi.m_deep_tx_merkle_root = m_deep_block.merkle_root)

/-- `TendermintOutput` (src/core/src/babylon.rs): the public output committed
by the consensus program. -/
structure TendermintOutput where
  trusted_height : Nat
  target_height : Nat
  trusted_header_hash : Bytes
  target_header_hash : Bytes
  compressed_block_public_input : Bytes
  app_hash : Bytes
deriving DecidableEq, Inhabited

/-- `TendermintOutput::encode`: the fixed 144-byte wire layout. -/
def TendermintOutput.encode (o : TendermintOutput) : Bytes :=
  toLEBytes 8 o.trusted_height ++ toLEBytes 8 o.target_height ++
  o.trusted_header_hash ++ o.target_header_hash ++
  o.compressed_block_public_input ++ o.app_hash

/-- `TendermintOutput::decode`: rejects any length other than 144, then
slices the six fields; modelled on the source's `data[a..b]` ranges. -/
def TendermintOutput.decode (data : Bytes) : Except String TendermintOutput :=
  if data.length ≠ 144 then .error "Invalid data length for TendermintOutput"
  else .ok
    { trusted_height := fromLEBytes (data.take 8)
      target_height := fromLEBytes ((data.drop 8).take 8)
      trusted_header_hash := (data.drop 16).take 32
      target_header_hash := (data.drop 48).take 32
      compressed_block_public_input := (data.drop 80).take 32
      app_hash := (data.drop 112).take 32 }

/-- `TendermintOutput::compute_hash`. -/
def TendermintOutput.compute_hash (o : TendermintOutput) : Bytes :=
  sha256_hash o.encode

/-- `VerifierPublicInput` (src/core/src/babylon.rs): the public input known
to the verifier of one consensus proving step. -/
structure VerifierPublicInput where
  parent_compressed_block_public_input : Bytes
  app_hash : Bytes
  target_height : Nat
  target_header_hash : Bytes
deriving DecidableEq, Inhabited

/-- The byte string `VerifierPublicInput::compute_hash` builds and hashes
(the source constructs it inline in `compute_hash`). -/
def VerifierPublicInput.serializedBytes (v : VerifierPublicInput) : Bytes :=
  v.parent_compressed_block_public_input ++ v.app_hash ++
  toLEBytes 8 v.target_height ++ v.target_header_hash

/-- `VerifierPublicInput::compute_hash`: a single SHA-256 of the serialized bytes. -/
def VerifierPublicInput.compute_hash (v : VerifierPublicInput) : Bytes :=
  sha256_hash v.serializedBytes

/-- `ConsensusWitness` (src/core/src/babylon.rs) holds two Tendermint light
blocks, which are opaque external-crate values.  The embedding keeps exactly
the data the consensus program extracts from them (heights, header hashes,
app hash); the external light-client verdict is an oracle parameter of the
program. -/
structure ConsensusWitness where
  trustedHeight : Nat
  targetHeight : Nat
  trustedHeaderHash : Bytes
  targetHeaderHash : Bytes
  appHash : Bytes
deriving DecidableEq, Inhabited

/-- `ConsensusInput` (src/core/src/babylon.rs): the full circuit input of the
Babylon consensus program. -/
structure ConsensusInput where
  proving_block_index : Nat
  circuit_vkey_u32_hash : List Nat
  parent_public_input : TendermintOutput
  current_public_input : VerifierPublicInput
  witness : ConsensusWitness
deriving DecidableEq, Inhabited

/-- `main` of src/programs/baby_consensus_program/src/main.rs.
`proofOracle vkey digest` models `sp1_zkvm::lib::verify::verify_sp1_proof`
(`false` aborts the program); `headerOk` models `verify_header`, i.e. the
next-validators-hash assertion plus the external `ProdVerifier` verdict.
`none` means the program panics and commits nothing. -/
def babyConsensusProgram (proofOracle : List Nat → Bytes → Bool)
    (headerOk : ConsensusWitness → Bool) (input : ConsensusInput) :
    Option TendermintOutput :=
  let current_public_input_hash := input.current_public_input.compute_hash
  let acc? : Option Bytes :=
    if input.proving_block_index = 0 then
      some (sha256_hash current_public_input_hash)
    else if proofOracle input.circuit_vkey_u32_hash input.parent_public_input.compute_hash then
      some (sha256_hash
        (input.parent_public_input.compressed_block_public_input ++ current_public_input_hash))
    else none
  match acc? with
  | none => none
  | some compressed_block_public_input =>
    if headerOk input.witness then
      some
        { trusted_height := input.witness.trustedHeight
          target_height := input.witness.targetHeight
          trusted_header_hash := input.witness.trustedHeaderHash
          target_header_hash := input.witness.targetHeaderHash
          compressed_block_public_input := compressed_block_public_input
          app_hash := input.witness.appHash }
    else none

/-- `KVPair` (src/core/src/babylon.rs): ordered key segments plus a value. -/
structure KVPair where
  keys : List Bytes
  value : Bytes
deriving DecidableEq, Inhabited

/-- Raw encoded Merkle proof bytes. -/
abbrev RawMerkleProof := Bytes

/-- `MembershipInput` (src/core/src/babylon.rs). -/
structure MembershipInput where
  app_hash : Bytes
  merkle_proofs : List (KVPair × RawMerkleProof)
deriving DecidableEq, Inhabited

/-- `MembershipOutput` (src/core/src/babylon.rs). -/
structure MembershipOutput where
  app_hash : Bytes
  kv_pairs : List KVPair
deriving DecidableEq, Inhabited

/-- `MembershipOutput::compute_hash`: one SHA-256 over the app hash followed
by, for each pair, the flattened key segments and the value — with no length
prefixes or separators. -/
def MembershipOutput.compute_hash (o : MembershipOutput) : Bytes :=
  sha256_hash (o.app_hash ++
    (o.kv_pairs.map (fun kv => kv.keys.flatten ++ kv.value)).flatten)

/-- One iteration of the loop in `verify_membership_proof`:
`decodeVec` models `MerkleProof::decode_vec` (external protobuf decoding,
`none` = the `expect` panics) and `verMember` models ICS23
`verify_membership` against the cosmos proof specs (`false` = panic).  The
pair is checked against the given root via the kv-pair's merkle path (its
key segments) and value. -/
def checkOneProof {π : Type} (decodeVec : RawMerkleProof → Option π)
    (verMember : π → Bytes → List Bytes → Bytes → Bool)
    (app_hash : Bytes) (pr : KVPair × RawMerkleProof) : Bool :=
  match decodeVec pr.2 with
  | none => false
  | some merkle_proof => verMember merkle_proof app_hash pr.1.keys pr.1.value

/-- `verify_membership_proof` (src/core/src/babylon.rs) as a Bool: `true`
iff every (kv-pair, raw-proof) entry decodes and verifies against `app_hash`. -/
def verify_membership_proof {π : Type} (decodeVec : RawMerkleProof → Option π)
    (verMember : π → Bytes → List Bytes → Bytes → Bool)
    (app_hash : Bytes) (proofs : List (KVPair × RawMerkleProof)) : Bool :=
  proofs.all (checkOneProof decodeVec verMember app_hash)

/-- `main` of src/programs/baby_membership_program/src/main.rs: verify the
batch, then commit the app hash and the kv-pairs with the proofs stripped;
`none` means the program panics and commits nothing. -/
def babyMembershipProgram {π : Type} (decodeVec : RawMerkleProof → Option π)
    (verMember : π → Bytes → List Bytes → Bytes → Bool)
    (input : MembershipInput) : Option MembershipOutput :=
  if verify_membership_proof decodeVec verMember input.app_hash input.merkle_proofs then
    some { app_hash := input.app_hash, kv_pairs := input.merkle_proofs.map Prod.fst }
  else none

/-- Read a bincode-legacy `u64`: 8 little-endian bytes; returns the value and
the remaining input. -/
def bcReadU64 (data : Bytes) : Option (Nat × Bytes) :=
  if 8 ≤ data.length then some (fromLEBytes (data.take 8), data.drop 8) else none

/-- Read `n` raw bytes (bincode `[u8; n]` arrays have no length prefix). -/
def bcReadRaw (n : Nat) (data : Bytes) : Option (Bytes × Bytes) :=
  if n ≤ data.length then some (data.take n, data.drop n) else none

/-- Read a bincode-legacy `Vec<u8>`: a `u64` length then that many raw bytes. -/
def bcReadVecU8 (data : Bytes) : Option (Bytes × Bytes) :=
  match bcReadU64 data with
  | none => none
  | some (n, rest) => bcReadRaw n rest

/-- Read `count` consecutive bincode-legacy `Vec<u8>` values. -/
def bcReadVecU8List : Nat → Bytes → Option (List Bytes × Bytes)
  | 0, data => some ([], data)
  | n + 1, data =>
    match bcReadVecU8 data with
    | none => none
    | some (v, rest) =>
      match bcReadVecU8List n rest with
      | none => none
      | some (vs, rest2) => some (v :: vs, rest2)

/-- Read a bincode-legacy `KVPair` (`Vec<Vec<u8>>` keys then `Vec<u8>` value). -/
def bcReadKVPair (data : Bytes) : Option (KVPair × Bytes) :=
  match bcReadU64 data with
  | none => none
  | some (n, rest) =>
    match bcReadVecU8List n rest with
    | none => none
    | some (keys, rest2) =>
      match bcReadVecU8 rest2 with
      | none => none
      | some (value, rest3) => some (⟨keys, value⟩, rest3)

/-- Read `count` consecutive bincode-legacy `KVPair` values. -/
def bcReadKVPairList : Nat → Bytes → Option (List KVPair × Bytes)
  | 0, data => some ([], data)
  | n + 1, data =>
    match bcReadKVPair data with
    | none => none
    | some (kv, rest) =>
      match bcReadKVPairList n rest with
      | none => none
      | some (kvs, rest2) => some (kv :: kvs, rest2)

/-- `bincode::decode_from_slice` with the legacy config for
`TendermintOutput`: six fixed-width fields, fix-int encoding, little-endian;
trailing bytes are permitted and returned. -/
def bcDecodeTendermintOutput (data : Bytes) : Option (TendermintOutput × Bytes) :=
  match bcReadU64 data with
  | none => none
  | some (trusted_height, r1) =>
    match bcReadU64 r1 with
    | none => none
    | some (target_height, r2) =>
      match bcReadRaw 32 r2 with
      | none => none
      | some (trusted_header_hash, r3) =>
        match bcReadRaw 32 r3 with
        | none => none
        | some (target_header_hash, r4) =>
          match bcReadRaw 32 r4 with
          | none => none
          | some (compressed, r5) =>
            match bcReadRaw 32 r5 with
            | none => none
            | some (app_hash, r6) =>
              some (⟨trusted_height, target_height, trusted_header_hash,
                     target_header_hash, compressed, app_hash⟩, r6)

/-- `bincode::decode_from_slice` with the legacy config for `MembershipOutput`. -/
def bcDecodeMembershipOutput (data : Bytes) : Option (MembershipOutput × Bytes) :=
  match bcReadRaw 32 data with
  | none => none
  | some (app_hash, r1) =>
    match bcReadU64 r1 with
    | none => none
    | some (n, r2) =>
      match bcReadKVPairList n r2 with
      | none => none
      | some (kv_pairs, r3) => some (⟨app_hash, kv_pairs⟩, r3)

/-- `AggregationInput` (src/core/src/babylon.rs): the two verification-key
digests and the two raw public-input byte blobs. -/
structure AggregationInput where
  consensus_vkey_u32_hash : List Nat
  consensus_public_input : Bytes
  membership_vkey_u32_hash : List Nat
  membership_public_input : Bytes
deriving DecidableEq, Inhabited

/-- `main` of src/programs/baby_aggregation_program/src/main.rs:
verify both upstream proofs via the oracle against the single SHA-256 of
their raw public-input bytes, decode both blobs, and assert the two
`app_hash` fields agree; `none` means the program panics, `some ()` means
it terminates (it currently commits no public output). -/
def babyAggregationProgram (proofOracle : List Nat → Bytes → Bool)
    (input : AggregationInput) : Option Unit :=
  if proofOracle input.consensus_vkey_u32_hash (sha256_hash input.consensus_public_input) then
    if proofOracle input.membership_vkey_u32_hash (sha256_hash input.membership_public_input) then
      match bcDecodeTendermintOutput input.consensus_public_input,
            bcDecodeMembershipOutput input.membership_public_input with
      | some (consensusOut, _), some (membershipOut, _) =>
        if consensusOut.app_hash = membershipOut.app_hash then some () else none
      | _, _ => none
    else none
  else none

/-- 32 zero bytes, used by concrete instances below. -/
def z32 : Bytes := List.replicate 32 0

/-- Concrete consensus witness data used by closed instances. -/
def cw0 : ConsensusWitness := ⟨1, 2, z32, z32, z32⟩

/-- Concrete consensus input at proving_block_index 0. -/
def ci0 : ConsensusInput :=
  { proving_block_index := 0
    circuit_vkey_u32_hash := List.replicate 8 0
    parent_public_input := ⟨0, 0, z32, z32, z32, z32⟩
    current_public_input := ⟨z32, z32, 0, z32⟩
    witness := cw0 }

/-- Concrete consensus input at proving_block_index 1 whose stated parent
commitment (all zeros) differs from the supplied parent output's
accumulator (all ones). -/
def ci1 : ConsensusInput :=
  { proving_block_index := 1
    circuit_vkey_u32_hash := List.replicate 8 0
    parent_public_input := ⟨0, 0, z32, z32, List.replicate 32 1, z32⟩
    current_public_input := ⟨z32, z32, 0, z32⟩
    witness := cw0 }

/-- Concrete membership input with one kv-pair/proof entry. -/
def mi1 : MembershipInput := ⟨z32, [(⟨[[1]], [2]⟩, [3])]⟩

/-- Concrete aggregation input whose two blobs decode to matching (all-zero)
app hashes. -/
def agg1 : AggregationInput :=
  ⟨List.replicate 8 0, List.replicate 144 0, List.replicate 8 0, List.replicate 40 0⟩

/-- Concrete aggregation input whose membership blob decodes to an app hash
differing from the consensus blob's. -/
def agg2 : AggregationInput :=
  ⟨List.replicate 8 0, List.replicate 144 0, List.replicate 8 0,
   (List.replicate 31 0 ++ [1]) ++ List.replicate 8 0⟩

def blkA0 : CircuitBlock :=
  ⟨1, [1, 0, 0, 0], z32, z32,
   [1, 0, 0, 0], [255, 255, 127, 32], [0, 0, 0, 0]⟩

def blkA1 : CircuitBlock :=
  ⟨2, [1, 0, 0, 0], z32, z32,
   [2, 0, 0, 0], [255, 255, 127, 32], [0, 0, 0, 0]⟩

def blkA2 : CircuitBlock :=
  ⟨3, [1, 0, 0, 0], z32, z32,
   [3, 0, 0, 0], [255, 255, 127, 32], [0, 0, 0, 0]⟩

def blkA3 : CircuitBlock :=
  ⟨4, [1, 0, 0, 0], z32, z32,
   [4, 0, 0, 0], [255, 255, 127, 32], [0, 0, 0, 0]⟩

def blkA4 : CircuitBlock :=
  ⟨5, [1, 0, 0, 0], z32, z32,
   [5, 0, 0, 0], [255, 255, 127, 32], [0, 0, 0, 0]⟩

def blkA5 : CircuitBlock :=
  ⟨6, [1, 0, 0, 0], z32, z32,
   [6, 0, 0, 0], [255, 255, 127, 32], [0, 0, 0, 0]⟩

def blkA6 : CircuitBlock :=
  ⟨7, [1, 0, 0, 0], z32, z32,
   [7, 0, 0, 0], [255, 255, 127, 32], [0, 0, 0, 0]⟩

def blkA7 : CircuitBlock :=
  ⟨8, [1, 0, 0, 0], z32, z32,
   [8, 0, 0, 0], [255, 255, 127, 32], [0, 0, 0, 0]⟩

def blkA8 : CircuitBlock :=
  ⟨9, [1, 0, 0, 0], z32, z32,
   [9, 0, 0, 0], [255, 255, 127, 32], [0, 0, 0, 0]⟩

def blkA9 : CircuitBlock :=
  ⟨10, [1, 0, 0, 0], z32, z32,
   [10, 0, 0, 0], [255, 255, 127, 32], [0, 0, 0, 0]⟩

def blkA10 : CircuitBlock :=
  ⟨11, [1, 0, 0, 0], z32, z32,
   [11, 0, 0, 0], [255, 255, 127, 32], [0, 0, 0, 0]⟩

def blkA11 : CircuitBlock :=
  ⟨12, [1, 0, 0, 0], [93, 228, 28, 167, 136, 215, 202, 209, 232, 206, 180, 108, 213, 96, 149, 151, 98, 70, 222, 31, 134, 166, 223, 13, 160, 238, 34, 146, 199, 120, 66, 137], z32,
   [100, 0, 0, 0], [255, 255, 127, 32], [0, 0, 0, 0]⟩

def blkB0 : CircuitBlock :=
  ⟨2005, [1, 0, 0, 0], z32, z32,
   [246, 116, 18, 0], [255, 255, 127, 29], [0, 0, 0, 0]⟩

def blkB1 : CircuitBlock :=
  ⟨2006, [1, 0, 0, 0], z32, z32,
   [247, 116, 18, 0], [255, 255, 127, 29], [0, 0, 0, 0]⟩

def blkB2 : CircuitBlock :=
  ⟨2007, [1, 0, 0, 0], z32, z32,
   [248, 116, 18, 0], [255, 255, 127, 29], [0, 0, 0, 0]⟩

def blkB3 : CircuitBlock :=
  ⟨2008, [1, 0, 0, 0], z32, z32,
   [249, 116, 18, 0], [255, 255, 127, 29], [0, 0, 0, 0]⟩

def blkB4 : CircuitBlock :=
  ⟨2009, [1, 0, 0, 0], z32, z32,
   [250, 116, 18, 0], [255, 255, 127, 29], [0, 0, 0, 0]⟩

def blkB5 : CircuitBlock :=
  ⟨2010, [1, 0, 0, 0], z32, z32,
   [251, 116, 18, 0], [255, 255, 127, 29], [0, 0, 0, 0]⟩

def blkB6 : CircuitBlock :=
  ⟨2011, [1, 0, 0, 0], z32, z32,
   [252, 116, 18, 0], [255, 255, 127, 29], [0, 0, 0, 0]⟩

def blkB7 : CircuitBlock :=
  ⟨2012, [1, 0, 0, 0], z32, z32,
   [253, 116, 18, 0], [255, 255, 127, 29], [0, 0, 0, 0]⟩

def blkB8 : CircuitBlock :=
  ⟨2013, [1, 0, 0, 0], z32, z32,
   [254, 116, 18, 0], [255, 255, 127, 29], [0, 0, 0, 0]⟩

def blkB9 : CircuitBlock :=
  ⟨2014, [1, 0, 0, 0], z32, z32,
   [255, 116, 18, 0], [255, 255, 127, 29], [0, 0, 0, 0]⟩

def blkB10 : CircuitBlock :=
  ⟨2015, [1, 0, 0, 0], z32, z32,
   [0, 117, 18, 0], [255, 255, 127, 29], [0, 0, 0, 0]⟩

def blkB11 : CircuitBlock :=
  ⟨2016, [1, 0, 0, 0], [231, 225, 114, 71, 47, 186, 173, 240, 107, 21, 177, 116, 139, 34, 232, 116, 172, 57, 253, 14, 182, 68, 245, 45, 89, 182, 66, 126, 222, 37, 79, 50], z32,
   [1, 117, 18, 0], [255, 255, 127, 29], [227, 53, 63, 0]⟩

def retargetB : CircuitBlock :=
  ⟨0, [1, 0, 0, 0], z32, z32,
   [0, 0, 0, 0], [255, 255, 127, 29], [7, 0, 0, 0]⟩

def pubA : ConsensusBlockPublicInput :=
  ⟨[137, 66, 120, 199, 146, 34, 238, 160, 13, 223, 166, 134, 31, 222, 70, 98, 151, 149, 96, 213, 108, 180, 206, 232, 209, 202, 215, 136, 167, 28, 228, 93],
   [115, 120, 147, 59, 10, 56, 122, 55, 226, 207, 50, 181, 190, 74, 158, 66, 246, 250, 126, 53, 183, 122, 148, 49, 65, 113, 46, 105, 52, 162, 158, 120],
   [99, 3, 238, 216, 143, 177, 164, 125, 117, 217, 197, 64, 212, 81, 200, 127, 46, 204, 104, 25, 39, 99, 185, 217, 29, 204, 198, 49, 127, 106, 210, 192],
   [117, 221, 251, 236, 52, 196, 164, 3, 140, 73, 127, 10, 90, 131, 7, 42, 71, 254, 131, 48, 13, 178, 149, 12, 247, 140, 84, 43, 113, 54, 54, 145],
   z32, 12⟩

def pubB : ConsensusBlockPublicInput :=
  ⟨[50, 79, 37, 222, 126, 66, 182, 89, 45, 245, 68, 182, 14, 253, 57, 172, 116, 232, 34, 139, 116, 177, 21, 107, 240, 173, 186, 47, 71, 114, 225, 231],
   [0, 0, 0, 65, 249, 162, 10, 23, 154, 164, 216, 149, 54, 27, 212, 44, 102, 89, 14, 44, 61, 66, 53, 145, 107, 255, 22, 68, 232, 1, 185, 53],
   [92, 66, 241, 165, 69, 233, 13, 126, 202, 225, 172, 140, 249, 234, 109, 247, 121, 68, 167, 168, 38, 16, 4, 14, 108, 62, 151, 136, 46, 45, 105, 158],
   [242, 31, 150, 65, 10, 239, 184, 122, 120, 53, 134, 136, 255, 125, 70, 80, 42, 122, 7, 91, 45, 107, 164, 137, 143, 99, 54, 65, 70, 179, 247, 118],
   z32, 2016⟩

/-- The 12-header chain at proposed height 12 (off the epoch boundary). -/
def chainA : List CircuitBlock :=
  [blkA0, blkA1, blkA2, blkA3, blkA4, blkA5, blkA6, blkA7, blkA8, blkA9, blkA10, blkA11]

/-- The 12-header chain at proposed height 2016 (on the epoch boundary). -/
def chainB : List CircuitBlock :=
  [blkB0, blkB1, blkB2, blkB3, blkB4, blkB5, blkB6, blkB7, blkB8, blkB9, blkB10, blkB11]

/-- Retarget header of the C3 counterexample: bits 0x0400FF00 decode to the
old target 0xFF0000; time 0. -/
def ctrR : CircuitBlock := ⟨0, [1, 0, 0, 0], z32, z32, [0, 0, 0, 0], [0, 255, 0, 4], [0, 0, 0, 0]⟩

/-- Epoch-end header of the C3 counterexample: time exactly one expected
epoch duration (1209600 seconds) after the retarget header. -/
def ctrP : CircuitBlock := ⟨1, [1, 0, 0, 0], z32, z32, [0, 117, 18, 0], [0, 0, 0, 0], [0, 0, 0, 0]⟩

/-- Proposed header of the C3 counterexample: bits 0x04FF0000 carry a
mantissa above 0x7FFFFF, so they decode to target zero, yet they pass the
retarget check against old target 0xFF0000. -/
def ctrN : CircuitBlock := ⟨2016, [1, 0, 0, 0], z32, z32, [0, 0, 0, 0], [0, 0, 255, 4], [0, 0, 0, 0]⟩

/-! ## Theorems -/

/-- SHA-256 FIPS test vector: the empty message. -/
theorem sha256_nil_vector :
    sha256 [] = [0xe3, 0xb0, 0xc4, 0x42, 0x98, 0xfc, 0x1c, 0x14, 0x9a, 0xfb, 0xf4, 0xc8,
                 0x99, 0x6f, 0xb9, 0x24, 0x27, 0xae, 0x41, 0xe4, 0x64, 0x9b, 0x93, 0x4c,
                 0xa4, 0x95, 0x99, 0x1b, 0x78, 0x52, 0xb8, 0x55] := by decide

/-- SHA-256 FIPS test vector: the three-byte message "abc". -/
theorem sha256_abc_vector :
    sha256 [0x61, 0x62, 0x63] =
      [0xba, 0x78, 0x16, 0xbf, 0x8f, 0x01, 0xcf, 0xea, 0x41, 0x41, 0x40, 0xde,
       0x5d, 0xae, 0x22, 0x23, 0xb0, 0x03, 0x61, 0xa3, 0x96, 0x17, 0x7a, 0x9c,
       0xb4, 0x10, 0xff, 0x61, 0xf2, 0x00, 0x15, 0xad] := by decide

theorem toLEBytes_length : ∀ (n x : Nat), (toLEBytes n x).length = n
  | 0, _ => rfl
  | n + 1, x => by simp [toLEBytes, toLEBytes_length n]

theorem fromLEBytes_toLEBytes : ∀ (n x : Nat), x < 256 ^ n → fromLEBytes (toLEBytes n x) = x
  | 0, x, h => by
    simp only [pow_zero, Nat.lt_one_iff] at h
    simp [toLEBytes, fromLEBytes, h]
  | n + 1, x, h => by
    have hdiv : x / 256 < 256 ^ n := by
      rw [Nat.div_lt_iff_lt_mul (by norm_num)]
      calc x < 256 ^ (n + 1) := h
        _ = 256 ^ n * 256 := by ring
    simp [toLEBytes, fromLEBytes, fromLEBytes_toLEBytes n (x / 256) hdiv]
    omega

/-- C8: for every `TendermintOutput` record, decoding its encoding returns the
record unchanged; `encode` always produces exactly 144 bytes in the field
order trusted_height(8) ‖ target_height(8) ‖ trusted_header_hash(32) ‖
target_header_hash(32) ‖ compressed_accumulator(32) ‖ app_state_root(32)
with little-endian heights; and decoding a buffer whose length is not 144
fails with a length error (the decoder is total, so no out-of-bounds panic
is possible). -/
theorem c8_tendermint_output_roundtrip :
    (∀ (o : TendermintOutput),
      o.trusted_height < 2 ^ 64 → o.target_height < 2 ^ 64 →
      o.trusted_header_hash.length = 32 → o.target_header_hash.length = 32 →
      o.compressed_block_public_input.length = 32 → o.app_hash.length = 32 →
      o.encode.length = 144 ∧
      o.encode = toLEBytes 8 o.trusted_height ++ toLEBytes 8 o.target_height ++
        o.trusted_header_hash ++ o.target_header_hash ++
        o.compressed_block_public_input ++ o.app_hash ∧
      TendermintOutput.decode o.encode = .ok o) ∧
    (∀ data : Bytes, data.length ≠ 144 →
      TendermintOutput.decode data = .error "Invalid data length for TendermintOutput") := by
  constructor
  · rintro ⟨th, tg, hs1, hs2, hs3, hs4⟩ hth htg h1 h2 h3 h4
    simp only at h1 h2 h3 h4 hth htg
    have hlenA : (toLEBytes 8 th).length = 8 := toLEBytes_length 8 th
    have hlenB : (toLEBytes 8 tg).length = 8 := toLEBytes_length 8 tg
    have hlen : (TendermintOutput.encode ⟨th, tg, hs1, hs2, hs3, hs4⟩).length = 144 := by
      simp [TendermintOutput.encode, hlenA, hlenB, h1, h2, h3, h4]
    refine ⟨hlen, rfl, ?_⟩
    have hrepr : TendermintOutput.encode ⟨th, tg, hs1, hs2, hs3, hs4⟩ =
        toLEBytes 8 th ++ (toLEBytes 8 tg ++ (hs1 ++ (hs2 ++ (hs3 ++ hs4)))) := by
      simp [TendermintOutput.encode]
    rw [TendermintOutput.decode, if_neg (by omega), hrepr]
    have d8 : (toLEBytes 8 th ++ (toLEBytes 8 tg ++ (hs1 ++ (hs2 ++ (hs3 ++ hs4))))).drop 8 =
        toLEBytes 8 tg ++ (hs1 ++ (hs2 ++ (hs3 ++ hs4))) := List.drop_left' hlenA
    have d16 : (toLEBytes 8 th ++ (toLEBytes 8 tg ++ (hs1 ++ (hs2 ++ (hs3 ++ hs4))))).drop 16 =
        hs1 ++ (hs2 ++ (hs3 ++ hs4)) := by
      rw [show (16 : Nat) = 8 + 8 by rfl, ← List.drop_drop, d8]
      exact List.drop_left' hlenB
    have d48 : (toLEBytes 8 th ++ (toLEBytes 8 tg ++ (hs1 ++ (hs2 ++ (hs3 ++ hs4))))).drop 48 =
        hs2 ++ (hs3 ++ hs4) := by
      rw [show (48 : Nat) = 16 + 32 by rfl, ← List.drop_drop, d16]
      exact List.drop_left' h1
    have d80 : (toLEBytes 8 th ++ (toLEBytes 8 tg ++ (hs1 ++ (hs2 ++ (hs3 ++ hs4))))).drop 80 =
        hs3 ++ hs4 := by
      rw [show (80 : Nat) = 48 + 32 by rfl, ← List.drop_drop, d48]
      exact List.drop_left' h2
    have d112 : (toLEBytes 8 th ++ (toLEBytes 8 tg ++ (hs1 ++ (hs2 ++ (hs3 ++ hs4))))).drop 112 =
        hs4 := by
      rw [show (112 : Nat) = 80 + 32 by rfl, ← List.drop_drop, d80]
      exact List.drop_left' h3
    rw [List.take_left' hlenA, d8, List.take_left' hlenB, d16, List.take_left' h1,
      d48, List.take_left' h2, d80, List.take_left' h3, d112]
    rw [List.take_of_length_le (le_of_eq h4), fromLEBytes_toLEBytes 8 th hth,
      fromLEBytes_toLEBytes 8 tg htg]
  · intro data hdata
    rw [TendermintOutput.decode, if_pos hdata]

/-- C8 witness: a concrete record round-trips and a 143-byte buffer is
rejected with the length error. -/
theorem c8_witness :
    TendermintOutput.decode (TendermintOutput.encode ⟨5, 9, z32, z32, z32, z32⟩) =
      .ok ⟨5, 9, z32, z32, z32, z32⟩ ∧
    TendermintOutput.decode (List.replicate 143 0) =
      .error "Invalid data length for TendermintOutput" :=
  ⟨((c8_tendermint_output_roundtrip.1 ⟨5, 9, z32, z32, z32, z32⟩ (by decide) (by decide)
      (by decide) (by decide) (by decide) (by decide)).2.2),
   c8_tendermint_output_roundtrip.2 (List.replicate 143 0) (by decide)⟩

/-- C5 counterexample: the all-zero verifier input record serializes to 104
bytes, not to the 72-byte layout the claim states (the spec's 72 omits the
32-byte `app_hash` field, mirroring the source's stale `BYTE_SIZE`
constant). -/
theorem c5_counterexample :
    (VerifierPublicInput.serializedBytes ⟨z32, z32, 0, z32⟩).length = 104 ∧
    (VerifierPublicInput.serializedBytes ⟨z32, z32, 0, z32⟩).length ≠ 72 := by decide

/-- C5 (amended): the BFT-chain verifier input record — parent compressed
accumulator, application state root, target height, target header hash —
serializes to a fixed 104-byte layout in that field order (32 ‖ 32 ‖ 8 ‖ 32,
little-endian height), and its commitment is a single SHA-256 hash of that
104-byte layout. -/
theorem c5_verifier_input_layout :
    ∀ (v : VerifierPublicInput),
      v.parent_compressed_block_public_input.length = 32 →
      v.app_hash.length = 32 → v.target_header_hash.length = 32 →
      v.serializedBytes.length = 104 ∧
      v.serializedBytes = v.parent_compressed_block_public_input ++ v.app_hash ++
        toLEBytes 8 v.target_height ++ v.target_header_hash ∧
      v.compute_hash = sha256_hash v.serializedBytes := by
  intro v h1 h2 h3
  refine ⟨?_, rfl, rfl⟩
  simp [VerifierPublicInput.serializedBytes, h1, h2, h3, toLEBytes_length]

/-- C5 witness: the amended layout facts at the all-zero record. -/
theorem c5_witness :
    (VerifierPublicInput.serializedBytes ⟨z32, z32, 0, z32⟩).length = 104 ∧
    VerifierPublicInput.compute_hash ⟨z32, z32, 0, z32⟩ =
      sha256_hash (VerifierPublicInput.serializedBytes ⟨z32, z32, 0, z32⟩) :=
  ⟨(c5_verifier_input_layout ⟨z32, z32, 0, z32⟩ (by decide) (by decide) (by decide)).1,
   (c5_verifier_input_layout ⟨z32, z32, 0, z32⟩ (by decide) (by decide) (by decide)).2.2⟩

/-- C9: two header records that agree on every field except the height
counter serialize to identical bytes and hash to identical block hashes; the
serialized form is 80 bytes (under the Rust field sizes), so the height is
not part of the wire form and does not influence the hash. -/
theorem c9_height_not_hashed :
    ∀ (b1 b2 : CircuitBlock),
      b1.version = b2.version → b1.prev_blockhash = b2.prev_blockhash →
      b1.merkle_root = b2.merkle_root → b1.time = b2.time →
      b1.bits = b2.bits → b1.nonce = b2.nonce →
      b1.serialize = b2.serialize ∧
      b1.compute_block_hash = b2.compute_block_hash ∧
      (b1.version.length = 4 → b1.prev_blockhash.length = 32 →
       b1.merkle_root.length = 32 → b1.time.length = 4 →
       b1.bits.length = 4 → b1.nonce.length = 4 → b1.serialize.length = 80) := by
  intro b1 b2 h1 h2 h3 h4 h5 h6
  have hser : b1.serialize = b2.serialize := by
    simp [CircuitBlock.serialize, h1, h2, h3, h4, h5, h6]
  refine ⟨hser, by rw [CircuitBlock.compute_block_hash, CircuitBlock.compute_block_hash, hser], ?_⟩
  intro l1 l2 l3 l4 l5 l6
  simp [CircuitBlock.serialize, l1, l2, l3, l4, l5, l6]

/-- C9 witness: two concrete headers differing only in height have equal
serializations and block hashes, and the serialization is 80 bytes. -/
theorem c9_witness :
    CircuitBlock.serialize ⟨3, [1, 0, 0, 0], z32, z32, [7, 0, 0, 0], [0xff, 0xff, 0x7f, 0x20], [9, 0, 0, 0]⟩ =
      CircuitBlock.serialize ⟨4, [1, 0, 0, 0], z32, z32, [7, 0, 0, 0], [0xff, 0xff, 0x7f, 0x20], [9, 0, 0, 0]⟩ ∧
    CircuitBlock.compute_block_hash ⟨3, [1, 0, 0, 0], z32, z32, [7, 0, 0, 0], [0xff, 0xff, 0x7f, 0x20], [9, 0, 0, 0]⟩ =
      CircuitBlock.compute_block_hash ⟨4, [1, 0, 0, 0], z32, z32, [7, 0, 0, 0], [0xff, 0xff, 0x7f, 0x20], [9, 0, 0, 0]⟩ ∧
    (CircuitBlock.serialize ⟨3, [1, 0, 0, 0], z32, z32, [7, 0, 0, 0], [0xff, 0xff, 0x7f, 0x20], [9, 0, 0, 0]⟩).length = 80 := by
  have h := c9_height_not_hashed
    ⟨3, [1, 0, 0, 0], z32, z32, [7, 0, 0, 0], [0xff, 0xff, 0x7f, 0x20], [9, 0, 0, 0]⟩
    ⟨4, [1, 0, 0, 0], z32, z32, [7, 0, 0, 0], [0xff, 0xff, 0x7f, 0x20], [9, 0, 0, 0]⟩
    rfl rfl rfl rfl rfl rfl
  exact ⟨h.1, h.2.1, h.2.2 (by decide) (by decide) (by decide) (by decide) (by decide) (by decide)⟩

/-- C10: `MembershipOutput::compute_hash` concatenates the state root, key
segments and values with no length prefixes or separators, so two distinct
outputs — here the same two bytes split as one key segment `[1,2]` versus
two key segments `[1]`,`[2]` — hash to the same digest. -/
theorem c10_membership_hash_collision :
    (⟨z32, [⟨[[1, 2]], []⟩]⟩ : MembershipOutput) ≠ (⟨z32, [⟨[[1], [2]], []⟩]⟩ : MembershipOutput) ∧
    MembershipOutput.compute_hash ⟨z32, [⟨[[1, 2]], []⟩]⟩ =
      MembershipOutput.compute_hash ⟨z32, [⟨[[1], [2]], []⟩]⟩ := by
  refine ⟨by decide, ?_⟩
  rw [MembershipOutput.compute_hash, MembershipOutput.compute_hash]
  exact congrArg sha256_hash (by decide)

set_option maxHeartbeats 1000000 in
/-- C1: the committed compressed accumulator of the consensus program
satisfies the recurrence — at proving_block_index 0 it is
SHA-256(SHA-256(serialized current public input)), and at any later index it
is SHA-256(parent accumulator ‖ SHA-256(serialized current public input)) —
for every oracle instantiation and every committing run. -/
theorem c1_accumulator_recurrence :
    ∀ (proofOracle : List Nat → Bytes → Bool) (headerOk : ConsensusWitness → Bool)
      (input : ConsensusInput) (out : TendermintOutput),
      babyConsensusProgram proofOracle headerOk input = some out →
      (input.proving_block_index = 0 →
        out.compressed_block_public_input =
          sha256_hash (sha256_hash input.current_public_input.serializedBytes)) ∧
      (input.proving_block_index ≠ 0 →
        out.compressed_block_public_input =
          sha256_hash (input.parent_public_input.compressed_block_public_input ++
            sha256_hash input.current_public_input.serializedBytes)) := by
  intro po ho input out h
  simp only [babyConsensusProgram] at h
  constructor
  · intro hidx
    rw [if_pos hidx] at h
    split at h
    · exact absurd h (by simp)
    · rename_i acc heq
      injection heq with heq'
      split at h
      · injection h with h'
        subst h'
        dsimp only
        rw [← heq']
        simp only [VerifierPublicInput.compute_hash]
      · exact absurd h (by simp)
  · intro hidx
    rw [if_neg hidx] at h
    split at h
    · exact absurd h (by simp)
    · rename_i acc heq
      split at heq
      · injection heq with heq'
        split at h
        · injection h with h'
          subst h'
          dsimp only
          rw [← heq']
          simp only [VerifierPublicInput.compute_hash]
        · exact absurd h (by simp)
      · exact absurd heq (by simp)

/-- C1 witness: at a concrete index-0 input with accepting oracles, the
committed first accumulator is the double SHA-256 of the serialized current
public input. -/
theorem c1_witness :
    ∃ out, babyConsensusProgram (fun _ _ => true) (fun _ => true) ci0 = some out ∧
      out.compressed_block_public_input =
        sha256_hash (sha256_hash ci0.current_public_input.serializedBytes) := by
  refine ⟨_, rfl, ?_⟩
  exact (c1_accumulator_recurrence (fun _ _ => true) (fun _ => true) ci0 _ rfl).1 rfl

/-- C2 counterexample: a step whose stated parent commitment
(`parent_compressed_block_public_input`, all zeros) differs from the
verified previous step's commitment (the parent output's accumulator, all
ones) still produces an output — the program never compares the two
fields, so the claim's "produces no output" clause is false. -/
theorem c2_counterexample :
    ci1.current_public_input.parent_compressed_block_public_input ≠
      ci1.parent_public_input.compressed_block_public_input ∧
    (babyConsensusProgram (fun _ _ => true) (fun _ => true) ci1).isSome = true :=
  ⟨by decide, rfl⟩

set_option maxHeartbeats 1000000 in
/-- C2 (amended): for every proving step with proving_block_index > 0, the
program produces an output only if the backend oracle accepts a proof
committing to the SHA-256 hash of the supplied parent public output (under
the externally supplied verification-key digest), and the new accumulator is
then SHA-256(parent output's accumulator ‖ SHA-256(serialized current public
input)); the step's stated parent commitment field is never compared against
the verified parent output's accumulator. -/
theorem c2_parent_proof_verification :
    ∀ (proofOracle : List Nat → Bytes → Bool) (headerOk : ConsensusWitness → Bool)
      (input : ConsensusInput) (out : TendermintOutput),
      input.proving_block_index ≠ 0 →
      babyConsensusProgram proofOracle headerOk input = some out →
      proofOracle input.circuit_vkey_u32_hash input.parent_public_input.compute_hash = true ∧
      out.compressed_block_public_input =
        sha256_hash (input.parent_public_input.compressed_block_public_input ++
          sha256_hash input.current_public_input.serializedBytes) := by
  intro po ho input out hidx h
  have hrec := (c1_accumulator_recurrence po ho input out h).2 hidx
  refine ⟨?_, hrec⟩
  simp only [babyConsensusProgram, if_neg hidx] at h
  split at h
  · exact absurd h (by simp)
  · rename_i acc heq
    split at heq
    · assumption
    · exact absurd heq (by simp)

/-- C2 witness: at the concrete index-1 input with an accepting oracle, the
oracle was indeed consulted on the hash of the supplied parent output, and
the committed accumulator folds the parent output's accumulator. -/
theorem c2_witness :
    ∃ out, babyConsensusProgram (fun _ _ => true) (fun _ => true) ci1 = some out ∧
      out.compressed_block_public_input =
        sha256_hash (ci1.parent_public_input.compressed_block_public_input ++
          sha256_hash ci1.current_public_input.serializedBytes) := by
  refine ⟨_, rfl, ?_⟩
  exact (c2_parent_proof_verification (fun _ _ => true) (fun _ => true) ci1 _
    (by decide) rfl).2

/-- C6: the membership program checks every (kv-pair, proof) entry
independently against the same input state root; a committing run implies
every entry passed and the output is exactly the input root with the
kv-pairs in input order and the proofs stripped, and any single failing
entry makes the whole batch commit nothing. -/
theorem c6_membership_batch :
    ∀ (π : Type) (decodeVec : RawMerkleProof → Option π)
      (verMember : π → Bytes → List Bytes → Bytes → Bool) (input : MembershipInput),
      (∀ out, babyMembershipProgram decodeVec verMember input = some out →
        out.app_hash = input.app_hash ∧
        out.kv_pairs = input.merkle_proofs.map Prod.fst ∧
        ∀ pr ∈ input.merkle_proofs,
          checkOneProof decodeVec verMember input.app_hash pr = true) ∧
      ((∃ pr ∈ input.merkle_proofs,
          checkOneProof decodeVec verMember input.app_hash pr = false) →
        babyMembershipProgram decodeVec verMember input = none) := by
  intro π dec ver input
  constructor
  · intro out h
    simp only [babyMembershipProgram] at h
    split at h
    · rename_i hall
      injection h with h'
      rw [← h']
      refine ⟨rfl, rfl, ?_⟩
      intro pr hpr
      exact List.all_eq_true.mp hall pr hpr
    · exact absurd h (by simp)
  · rintro ⟨pr, hpr, hfail⟩
    simp only [babyMembershipProgram]
    rw [if_neg]
    intro hall
    have := List.all_eq_true.mp hall pr hpr
    rw [hfail] at this
    exact Bool.false_ne_true this

/-- C6 witness: with an accepting proof checker the concrete batch commits
the stripped output; with a failing decoder the same batch commits nothing. -/
theorem c6_witness :
    (∃ out, babyMembershipProgram (π := Unit) (fun _ => some ()) (fun _ _ _ _ => true) mi1 =
        some out ∧
      out.app_hash = mi1.app_hash ∧ out.kv_pairs = mi1.merkle_proofs.map Prod.fst) ∧
    babyMembershipProgram (π := Unit) (fun _ => none) (fun _ _ _ _ => true) mi1 = none := by
  constructor
  · refine ⟨_, rfl, ?_⟩
    have h := (c6_membership_batch Unit (fun _ => some ()) (fun _ _ _ _ => true) mi1).1 _ rfl
    exact ⟨h.1, h.2.1⟩
  · exact (c6_membership_batch Unit (fun _ => none) (fun _ _ _ _ => true) mi1).2
      ⟨(⟨[[1]], [2]⟩, [3]), by simp [mi1], rfl⟩

/-- C7: the aggregation program commits only if the oracle verified each
upstream proof against its verification-key digest and the single SHA-256 of
its raw public-input bytes; and when both blobs decode, runs with matching
app-hash fields terminate successfully while runs with mismatched app-hash
fields fail (producing nothing). -/
theorem c7_aggregation_consistency :
    ∀ (proofOracle : List Nat → Bytes → Bool) (input : AggregationInput),
      (∀ u, babyAggregationProgram proofOracle input = some u →
        proofOracle input.consensus_vkey_u32_hash
          (sha256_hash input.consensus_public_input) = true ∧
        proofOracle input.membership_vkey_u32_hash
          (sha256_hash input.membership_public_input) = true) ∧
      (∀ co rc mo rm,
        bcDecodeTendermintOutput input.consensus_public_input = some (co, rc) →
        bcDecodeMembershipOutput input.membership_public_input = some (mo, rm) →
        proofOracle input.consensus_vkey_u32_hash
          (sha256_hash input.consensus_public_input) = true →
        proofOracle input.membership_vkey_u32_hash
          (sha256_hash input.membership_public_input) = true →
        (co.app_hash = mo.app_hash → babyAggregationProgram proofOracle input = some ()) ∧
        (co.app_hash ≠ mo.app_hash → babyAggregationProgram proofOracle input = none)) := by
  intro po input
  constructor
  · intro u h
    simp only [babyAggregationProgram] at h
    by_cases h1 : po input.consensus_vkey_u32_hash
        (sha256_hash input.consensus_public_input) = true
    · by_cases h2 : po input.membership_vkey_u32_hash
          (sha256_hash input.membership_public_input) = true
      · exact ⟨h1, h2⟩
      · rw [if_pos h1, if_neg h2] at h
        exact absurd h (by simp)
    · rw [if_neg h1] at h
      exact absurd h (by simp)
  · intro co rc mo rm hdc hdm ho1 ho2
    constructor
    · intro happ
      simp only [babyAggregationProgram, ho1, ho2, if_true, hdc, hdm]
      rw [if_pos happ]
    · intro happ
      simp only [babyAggregationProgram, ho1, ho2, if_true, hdc, hdm]
      rw [if_neg happ]

set_option maxRecDepth 4000 in
/-- C7 witness: with an accepting oracle the matching-roots input commits and
the mismatched-roots input fails. -/
theorem c7_witness :
    babyAggregationProgram (fun _ _ => true) agg1 = some () ∧
    babyAggregationProgram (fun _ _ => true) agg2 = none := by
  constructor
  · exact ((c7_aggregation_consistency (fun _ _ => true) agg1).2
      ⟨0, 0, z32, z32, z32, z32⟩ [] ⟨z32, []⟩ []
      (by decide) (by decide) rfl rfl).1 (by decide)
  · exact ((c7_aggregation_consistency (fun _ _ => true) agg2).2
      ⟨0, 0, z32, z32, z32, z32⟩ [] ⟨List.replicate 31 0 ++ [1], []⟩ []
      (by decide) (by decide) rfl rfl).2 (by decide)

/-- C4: a proposed block is accepted by `validate_block` only if its block
hash, read as a 256-bit big-endian integer, is at most the target decoded
from the proposed header's compact bits; and the decoder shifts the 24-bit
mantissa left by `8*(exponent-3)` bits (for exponents above 3), with a
mantissa above 0x7FFFFF decoding to target zero. -/
theorem c4_pow_threshold :
    (∀ (proposed_chain : List CircuitBlock) (retarget_block : CircuitBlock)
       (bpi : ConsensusBlockPublicInput),
      validate_block proposed_chain retarget_block bpi = true →
      beNat bpi.proposed_block_hash ≤
        bits_to_target (proposed_chain.getD (proposed_chain.length - 1) default).bits) ∧
    (∀ bits : Bytes, 3 < fromLEBytes bits >>> 24 →
      (0x7FFFFF < (fromLEBytes bits &&& 0xFFFFFF) → bits_to_target bits = 0) ∧
      ((fromLEBytes bits &&& 0xFFFFFF) ≤ 0x7FFFFF →
        bits_to_target bits =
          (fromLEBytes bits &&& 0xFFFFFF) * 2 ^ (8 * (fromLEBytes bits >>> 24 - 3)) %
            U256_LIMIT)) := by
  constructor
  · intro chain ret bpi h
    simp only [validate_block, Bool.and_eq_true, decide_eq_true_eq] at h
    exact h.1.1.2
  · intro bits he
    have hne : ¬ (fromLEBytes bits >>> 24 ≤ 3) := by omega
    constructor
    · intro hm
      simp only [bits_to_target]
      rw [if_neg hne, if_neg hne, if_pos hm]
    · intro hm
      simp only [bits_to_target]
      rw [if_neg hne, if_neg hne, if_neg (by omega), Nat.shiftLeft_eq]

/-- C3 (amended): in `validate_block`, off epoch boundaries
(`height % 2016 ≠ 0`) acceptance forces the proposed header's bits to equal
the retarget header's bits; on a boundary acceptance forces
`assert_new_target_bits`, whose recomputed target is
`T = old_target * (prev.time − retarget.time) / expected_epoch_seconds`
(overflowing 256 bits is fatal); for a proposed bits field with exponent
≥ 3 and (non-overflowing) mantissa ≤ 0x7FFFFF the check passes iff
`bits_to_target(proposed) ≤ T < bits_to_target(proposed) + 2^(8*(exponent−3))`
— the compact encoding's truncation interval; and when the elapsed time
equals exactly the expected epoch duration, `T` equals the old target
unchanged (the check may nevertheless also pass for bits that do not decode
to the old target, see the counterexample). -/
theorem c3_difficulty_bits_check :
    (∀ (chain : List CircuitBlock) (ret : CircuitBlock) (bpi : ConsensusBlockPublicInput),
      validate_block chain ret bpi = true → bpi.proposed_block_height % 2016 ≠ 0 →
      ret.bits = (chain.getD (chain.length - 1) default).bits) ∧
    (∀ (chain : List CircuitBlock) (ret : CircuitBlock) (bpi : ConsensusBlockPublicInput),
      validate_block chain ret bpi = true → bpi.proposed_block_height % 2016 = 0 →
      assert_new_target_bits ret (chain.getD (chain.length - 2) default)
        (chain.getD (chain.length - 1) default) = true) ∧
    (∀ r p n : CircuitBlock,
      3 ≤ fromLEBytes n.bits >>> 24 →
      (fromLEBytes n.bits &&& 0xFFFFFF) ≤ 0x7FFFFF →
      bits_to_target r.bits * wrappingSub32 (fromLEBytes p.time) (fromLEBytes r.time) <
        U256_LIMIT →
      (fromLEBytes n.bits &&& 0xFFFFFF) * 2 ^ (8 * (fromLEBytes n.bits >>> 24 - 3)) <
        U256_LIMIT →
      (assert_new_target_bits r p n = true ↔
        bits_to_target n.bits ≤
            bits_to_target r.bits * wrappingSub32 (fromLEBytes p.time) (fromLEBytes r.time) /
              EXPECTED_EPOCH_SECONDS ∧
          bits_to_target r.bits * wrappingSub32 (fromLEBytes p.time) (fromLEBytes r.time) /
              EXPECTED_EPOCH_SECONDS <
            bits_to_target n.bits + 2 ^ (8 * (fromLEBytes n.bits >>> 24 - 3)))) ∧
    (∀ r p : CircuitBlock,
      wrappingSub32 (fromLEBytes p.time) (fromLEBytes r.time) = EXPECTED_EPOCH_SECONDS →
      bits_to_target r.bits * wrappingSub32 (fromLEBytes p.time) (fromLEBytes r.time) /
          EXPECTED_EPOCH_SECONDS = bits_to_target r.bits) := by
  refine ⟨?_, ?_, ?_, ?_⟩
  · intro chain ret bpi h hmod
    simp only [validate_block, Bool.and_eq_true, decide_eq_true_eq] at h
    have h12 := h.1.1.1.2
    rw [if_neg hmod] at h12
    exact of_decide_eq_true h12
  · intro chain ret bpi h hmod
    simp only [validate_block, Bool.and_eq_true, decide_eq_true_eq] at h
    have h12 := h.1.1.1.2
    rw [if_pos hmod] at h12
    exact h12
  · intro r p n he hm hov hnotrunc
    have hnov : ¬ (bits_to_target r.bits *
        wrappingSub32 (fromLEBytes p.time) (fromLEBytes r.time) ≥ U256_LIMIT) := by omega
    have hmn : ¬ ((fromLEBytes n.bits &&& 0xFFFFFF) > 0x7FFFFF) := by omega
    simp only [assert_new_target_bits]
    rw [if_neg hnov, if_neg hmn]
    by_cases h3 : fromLEBytes n.bits >>> 24 ≤ 3
    · have he3 : fromLEBytes n.bits >>> 24 = 3 := Nat.le_antisymm h3 he
      have hbt : bits_to_target n.bits = fromLEBytes n.bits &&& 0xFFFFFF := by
        simp only [bits_to_target]
        rw [if_pos h3, if_pos h3, he3, Nat.sub_self, Nat.mul_zero, Nat.shiftRight_zero,
          if_neg hmn, Nat.shiftLeft_zero]
        exact Nat.mod_eq_of_lt (by simp only [U256_LIMIT]; omega)
      rw [if_pos h3, he3, Nat.sub_self, Nat.mul_zero, Nat.shiftRight_zero, hbt]
      simp only [decide_eq_true_eq, pow_zero]
      omega
    · have hbt : bits_to_target n.bits =
          (fromLEBytes n.bits &&& 0xFFFFFF) * 2 ^ (8 * (fromLEBytes n.bits >>> 24 - 3)) := by
        simp only [bits_to_target]
        rw [if_neg h3, if_neg h3, if_neg hmn, Nat.shiftLeft_eq]
        exact Nat.mod_eq_of_lt hnotrunc
      rw [if_neg h3, hbt, decide_eq_true_eq]
      generalize bits_to_target r.bits * wrappingSub32 (fromLEBytes p.time) (fromLEBytes r.time) /
        EXPECTED_EPOCH_SECONDS = T
      generalize 8 * (fromLEBytes n.bits >>> 24 - 3) = s
      generalize fromLEBytes n.bits &&& 16777215 = m
      rw [Nat.shiftRight_eq_div_pow]
      constructor
      · intro hdiv
        have h1 := Nat.div_add_mod T (2 ^ s)
        have h2 := Nat.mod_lt T (Nat.two_pow_pos s)
        rw [hdiv, Nat.mul_comm] at h1
        omega
      · rintro ⟨hlo, hhi⟩
        apply Nat.div_eq_of_lt_le
        · exact hlo
        · rw [Nat.succ_mul]
          omega
  · intro r p hdt
    rw [hdt]
    exact Nat.mul_div_cancel _ (by decide)

set_option maxRecDepth 100000 in
/-- The concrete height-12 chain satisfies all nine validator checks. -/
theorem chainA_valid : validate_block chainA blkA0 pubA = true := by decide

set_option maxRecDepth 100000 in
/-- The concrete height-2016 chain satisfies all nine validator checks,
taking the epoch-boundary difficulty branch. -/
theorem chainB_valid : validate_block chainB retargetB pubB = true := by decide

/-- C4 witness: the concrete height-12 chain is accepted and its proposed
hash, read big-endian, is at most the decoded target. -/
theorem c4_witness :
    validate_block chainA blkA0 pubA = true ∧
    beNat pubA.proposed_block_hash ≤
      bits_to_target (chainA.getD (chainA.length - 1) default).bits :=
  ⟨chainA_valid, c4_pow_threshold.1 chainA blkA0 pubA chainA_valid⟩

/-- C3 counterexample: with the elapsed time exactly equal to the expected
epoch duration, `assert_new_target_bits` passes for a proposed header whose
bits neither equal the retarget header's bits nor decode to the unchanged
old target (they decode to zero) — refuting the claim's "passes if and only
if the proposed header's bits encode the unchanged old target". -/
theorem c3_counterexample :
    wrappingSub32 (fromLEBytes ctrP.time) (fromLEBytes ctrR.time) = EXPECTED_EPOCH_SECONDS ∧
    assert_new_target_bits ctrR ctrP ctrN = true ∧
    bits_to_target ctrN.bits = 0 ∧
    bits_to_target ctrR.bits = 0xFF0000 ∧
    bits_to_target ctrN.bits ≠ bits_to_target ctrR.bits ∧
    ctrN.bits ≠ ctrR.bits := by decide

/-- C3 witness: the amended theorem applied at the concrete chains — the
unchanged-bits branch on the height-12 chain, the epoch-boundary branch on
the height-2016 chain, the truncation-interval characterization, and the
exact-epoch-duration target preservation. -/
theorem c3_witness :
    blkA0.bits = (chainA.getD (chainA.length - 1) default).bits ∧
    assert_new_target_bits retargetB (chainB.getD (chainB.length - 2) default)
      (chainB.getD (chainB.length - 1) default) = true ∧
    (bits_to_target blkB11.bits ≤
        bits_to_target retargetB.bits *
          wrappingSub32 (fromLEBytes blkB10.time) (fromLEBytes retargetB.time) /
          EXPECTED_EPOCH_SECONDS ∧
      bits_to_target retargetB.bits *
          wrappingSub32 (fromLEBytes blkB10.time) (fromLEBytes retargetB.time) /
          EXPECTED_EPOCH_SECONDS <
        bits_to_target blkB11.bits + 2 ^ (8 * (fromLEBytes blkB11.bits >>> 24 - 3))) ∧
    bits_to_target retargetB.bits *
        wrappingSub32 (fromLEBytes blkB10.time) (fromLEBytes retargetB.time) /
        EXPECTED_EPOCH_SECONDS = bits_to_target retargetB.bits := by
  refine ⟨?_, ?_, ?_, ?_⟩
  · exact c3_difficulty_bits_check.1 chainA blkA0 pubA chainA_valid (by decide)
  · exact c3_difficulty_bits_check.2.1 chainB retargetB pubB chainB_valid (by decide)
  · exact (c3_difficulty_bits_check.2.2.1 retargetB blkB10 blkB11 (by decide) (by decide)
      (by decide) (by decide)).mp (by decide)
  · exact c3_difficulty_bits_check.2.2.2 retargetB blkB10 (by decide)

end ZkLC
